import Mathlib

/-!
Verification model of the SQL execution engine in `SQLExec.cpp` of the
relation_manager repository.  The executors (`create_table`, `create_index`,
`drop_table`, `drop_index`, `insert`, `del`, `select`, the `show` family and
the `execute` dispatcher) are translated directly from the source.  The
storage collaborators (`DbRelation`, `DbIndex`, the `Tables`/`Indices`
catalog singletons) and the `EvalPlan` tree are not part of the provided
source file; they are modelled from the specification, as marked on each
such definition.  Fault parameters (`CtFaults`, `IxFaults`) inject storage
failures at the points where the C++ code can receive exceptions from the
storage layer, so that the rollback protocols can be stated and proved.
-/

namespace RelationManager

/-- Declared column data type; mirrors `ColumnAttribute::DataType` in the
source (`INT`, `TEXT`, plus the internal `BOOLEAN` used for catalog rows). -/
inductive DataType where
  | INT
  | TEXT
  | BOOLEAN
deriving DecidableEq, Repr

/-- Tagged scalar value, mirroring the C++ `Value` (data_type plus payload).
`Value(bool)` in the source stores a BOOLEAN with n = 0/1; here the payload
is kept as a `Bool`. -/
inductive Value where
  | int (n : Int)
  | text (s : String)
  | bool (b : Bool)
deriving DecidableEq, Repr

/-- Truncation of a C++ `int64_t` expression value to `int32_t`, as performed
by the `Value(int32_t)` constructor used in the source. -/
def int32 (n : Int) : Int :=
  (n + 2 ^ 31) % 2 ^ 32 - 2 ^ 31

/-- A `ValueDict` (C++ `std::map<Identifier, Value>`): finitely many
column-name/value bindings with unique keys.  Modelled as an association
list; the C++ map is key-sorted, but no executor depends on iteration
order, only on lookup. -/
abbrev ValueDict := List (String × Value)

/-- Lookup of a key in a `ValueDict` (C++ `map::at` / `map::find`). -/
def vdLookup : ValueDict → String → Option Value
  | [], _ => none
  | (k, v) :: rest, key => if k = key then some v else vdLookup rest key

/-- `row[key] = value` on a `ValueDict` (C++ `map::operator[]`): overwrites
an existing binding in place, otherwise appends a new one. -/
def vdSet : ValueDict → String → Value → ValueDict
  | [], k, v => [(k, v)]
  | (k', v') :: rest, k, v =>
      if k' = k then (k', v) :: rest else (k', v') :: vdSet rest k v

/-- Ranged `map::insert` (used by `get_where_conjunction` for AND):
keys already present in the destination are kept, new keys are added. -/
def vdInsertAll (d : ValueDict) : ValueDict → ValueDict
  | [] => d
  | (k, v) :: rest =>
      vdInsertAll (if (vdLookup d k).isSome then d else d ++ [(k, v)]) rest

/-- Does `row` satisfy the equality conjunction `w` (each binding of `w`
must be present in `row` with an equal value)?  This is the predicate
semantics of `DbRelation::select(where)`, modelled from the spec. -/
def vdMatches (row w : ValueDict) : Bool :=
  w.all (fun p => decide (vdLookup row p.1 = some p.2))

/-- Extract the string payload of a value lookup; mirrors reading `.s`
on a `Value` known by the source to be TEXT. -/
def textOf : Option Value → String
  | some (Value.text s) => s
  | _ => ""

/-- Modelled from the spec: a relation (C++ `DbRelation`, heap-file backed;
the storage engine is not in the provided source).  It has an ordered
schema, rows addressed by opaque storage-issued handles, and a fresh-handle
counter. -/
structure DbRelation where
  columnNames : List String
  columnAttrs : List DataType
  rows : List (Nat × ValueDict)
  next : Nat
deriving DecidableEq, Repr

/-- Handle well-formedness: every row handle is below the fresh counter,
so newly issued handles never collide with live rows. -/
def DbRelation.WF (r : DbRelation) : Prop :=
  ∀ p ∈ r.rows, p.1 < r.next

instance (r : DbRelation) : Decidable r.WF := by
  unfold DbRelation.WF
  infer_instance

/-- Modelled from the spec: `DbRelation::insert(row) → handle`. -/
def DbRelation.insertRow (r : DbRelation) (row : ValueDict) : Nat × DbRelation :=
  (r.next, { r with rows := r.rows ++ [(r.next, row)], next := r.next + 1 })

/-- Modelled from the spec: `DbRelation::del(handle)`. -/
def DbRelation.delRow (r : DbRelation) (h : Nat) : DbRelation :=
  { r with rows := r.rows.filter (fun p => decide (p.1 ≠ h)) }

/-- Modelled from the spec: `DbRelation::select()` with no predicate:
all handles in scan order. -/
def DbRelation.selectAll (r : DbRelation) : List Nat :=
  r.rows.map Prod.fst

/-- Modelled from the spec: `DbRelation::select(where)`: handles of the rows
satisfying the equality conjunction, in scan order. -/
def DbRelation.selectWhere (r : DbRelation) (w : ValueDict) : List Nat :=
  (r.rows.filter (fun p => vdMatches p.2 w)).map Prod.fst

/-- The stored row a handle refers to (empty when the handle is dead). -/
def rowAt (rows : List (Nat × ValueDict)) (h : Nat) : ValueDict :=
  ((rows.find? (fun p => decide (p.1 = h))).map Prod.snd).getD []

/-- Modelled from the spec: `DbRelation::project(handle, column_names)`:
the stored row restricted to the requested columns, in requested order. -/
def DbRelation.project (r : DbRelation) (h : Nat) (cols : List String) : ValueDict :=
  let row := rowAt r.rows h
  cols.filterMap (fun c => (vdLookup row c).map (fun v => (c, v)))

/-- A sequence of inserts into one relation, returning the acquired handles
in order (the `c_handles` / `i_handles` vectors of the DDL executors). -/
def insertMany (r : DbRelation) : List ValueDict → List Nat × DbRelation
  | [] => ([], r)
  | v :: vs =>
      let (h, r1) := r.insertRow v
      let (hs, r2) := insertMany r1 vs
      (h :: hs, r2)

/-- A sequence of deletions by handle (the rollback loops of the DDL
executors delete the recorded handles in order). -/
def delRows (r : DbRelation) (hs : List Nat) : DbRelation :=
  hs.foldl DbRelation.delRow r

/-- Rows tagged with consecutive handles starting at `n`; describes the
block of rows appended by `insertMany`. -/
def tagFrom (n : Nat) : List ValueDict → List (Nat × ValueDict)
  | [] => []
  | v :: vs => (n, v) :: tagFrom (n + 1) vs

/-- The relation state after appending a block of rows: same schema, the
tagged block appended, fresh counter advanced. -/
def DbRelation.afterInsert (r : DbRelation) (vs : List ValueDict) : DbRelation :=
  { r with rows := r.rows ++ tagFrom r.next vs, next := r.next + vs.length }

theorem tagFrom_length (n : Nat) (vs : List ValueDict) :
    (tagFrom n vs).length = vs.length := by
  induction vs generalizing n with
  | nil => rfl
  | cons v vs ih => simp [tagFrom, ih]

theorem insertMany_eq (vs : List ValueDict) : ∀ r : DbRelation,
    insertMany r vs = ((tagFrom r.next vs).map Prod.fst, r.afterInsert vs) := by
  induction vs with
  | nil =>
      intro r
      simp [insertMany, tagFrom, DbRelation.afterInsert]
  | cons v vs ih =>
      intro r
      simp only [insertMany, DbRelation.insertRow, ih, tagFrom, List.map_cons,
        DbRelation.afterInsert]
      simp [List.append_assoc]
      omega

theorem mem_tagFrom_fst {x : Nat} :
    ∀ (n : Nat) (vs : List ValueDict), x ∈ (tagFrom n vs).map Prod.fst → n ≤ x := by
  intro n vs
  induction vs generalizing n with
  | nil => simp [tagFrom]
  | cons v vs ih =>
      intro hx
      simp only [tagFrom, List.map_cons, List.mem_cons] at hx
      rcases hx with h | h
      · omega
      · have := ih (n + 1) h
        omega

theorem delRows_rows (hs : List Nat) : ∀ r : DbRelation,
    (delRows r hs).rows = r.rows.filter (fun p => decide (p.1 ∉ hs)) := by
  induction hs with
  | nil =>
      intro r
      simp [delRows]
  | cons h hs ih =>
      intro r
      have step : delRows r (h :: hs) = delRows (r.delRow h) hs := rfl
      rw [step, ih]
      simp only [DbRelation.delRow]
      rw [List.filter_filter]
      apply List.filter_congr
      intro p _
      simp only [List.mem_cons, not_or, Bool.and_comm]
      by_cases h1 : p.1 = h <;> by_cases h2 : p.1 ∈ hs <;> simp [h1, h2]

/-- Inserting a block of rows and then deleting every acquired handle
restores the relation's rows exactly (given handle well-formedness).  This
is the heart of the DDL rollback protocols. -/
theorem insertMany_delRows_restore (r : DbRelation) (hwf : r.WF)
    (vs : List ValueDict) (hs : List Nat) (r1 : DbRelation)
    (h : insertMany r vs = (hs, r1)) :
    (delRows r1 hs).rows = r.rows := by
  rw [insertMany_eq] at h
  have hhs : hs = (tagFrom r.next vs).map Prod.fst := (congrArg Prod.fst h).symm
  have hr1 : r1 = r.afterInsert vs := (congrArg Prod.snd h).symm
  subst hhs
  subst hr1
  rw [delRows_rows]
  have hrows : (r.afterInsert vs).rows = r.rows ++ tagFrom r.next vs := rfl
  rw [hrows, List.filter_append]
  have hold : r.rows.filter
      (fun p => decide (p.1 ∉ (tagFrom r.next vs).map Prod.fst)) = r.rows := by
    apply List.filter_eq_self.mpr
    intro p hp
    have hlt : p.1 < r.next := hwf p hp
    simp only [decide_eq_true_eq]
    intro hmem
    have := mem_tagFrom_fst r.next vs hmem
    omega
  have hnew : (tagFrom r.next vs).filter
      (fun p => decide (p.1 ∉ (tagFrom r.next vs).map Prod.fst)) = [] := by
    apply List.filter_eq_nil_iff.mpr
    intro p hp
    simp only [decide_eq_true_eq, not_not]
    exact List.mem_map_of_mem Prod.fst hp
  rw [hold, hnew, List.append_nil]

/-- Single-insert specialisation of the restoration lemma, used for the
`_tables` row of the CREATE TABLE rollback. -/
theorem insert_delRow_restore (r : DbRelation) (hwf : r.WF) (v : ValueDict) :
    ((r.insertRow v).2.delRow (r.insertRow v).1).rows = r.rows := by
  have h := insertMany_delRows_restore r hwf [v]
      (insertMany r [v]).1 (insertMany r [v]).2 rfl
  simpa [insertMany, delRows] using h

theorem insertMany_components (r : DbRelation) (vs : List ValueDict)
    (hs : List Nat) (r1 : DbRelation) (h : insertMany r vs = (hs, r1)) :
    hs = (tagFrom r.next vs).map Prod.fst ∧ r1 = r.afterInsert vs := by
  rw [insertMany_eq] at h
  have h1 : hs = (tagFrom r.next vs).map Prod.fst := (congrArg Prod.fst h).symm
  have h2 : r1 = r.afterInsert vs := (congrArg Prod.snd h).symm
  exact ⟨h1, h2⟩

/-- Exception kinds of the engine: `SQLExecError` (thrown by the executors)
and `DbRelationError` (thrown by the storage layer and by the predicate
extractor).  `execute` rewraps the latter into the former. -/
inductive DbError where
  | sqlExecError (m : String)
  | dbRelationError (m : String)
deriving DecidableEq, Repr

/-- `QueryResult`: either a message-only result or a tabular result with
column names, column attributes, rows and a message (the two C++
constructors; nullable fields modelled as a sum). -/
inductive QueryResult where
  | msg (m : String)
  | table (column_names : List String) (column_attributes : List DataType)
      (rows : List ValueDict) (m : String)
deriving DecidableEq, Repr

/-- hsql `ExprType`, with the enum codes of the parser the source links
against (used because the source's `"Don't know how to handle " + type`
performs pointer arithmetic with the enum value). -/
inductive ExprType where
  | literalFloat
  | literalString
  | literalInt
  | star
  | placeholder
  | columnRef
  | functionRef
  | operator
  | selectE
  | hintE
  | arrayE
  | arrayIndex
deriving DecidableEq, Repr

/-- Numeric code of an `ExprType` (the hsql enum value). -/
def ExprType.code : ExprType → Nat
  | .literalFloat => 0
  | .literalString => 1
  | .literalInt => 2
  | .star => 3
  | .placeholder => 4
  | .columnRef => 5
  | .functionRef => 6
  | .operator => 7
  | .selectE => 8
  | .hintE => 9
  | .arrayE => 10
  | .arrayIndex => 11

/-- The message built by `throw DbRelationError("Don't know how to handle "
+ expr->expr2->type)`: in C++ this adds the enum value to the string
literal's pointer, so the message is the literal with its first `code`
characters dropped. -/
def dontKnowMsg (t : ExprType) : String :=
  String.drop "Don't know how to handle " t.code

/-- hsql operator kinds relevant to the source (`Expr::AND` etc.); simple
binary operators such as `=` are identified by `opChar`. -/
inductive OpType where
  | opNone
  | opAnd
  | opOr
  | opNot
  | opSimple
deriving DecidableEq, Repr

/-- hsql `Expr` node: type tag, operator kind, operator character, `name`
(column name / string payload), `ival` (integer payload), and child
expressions (`expr`, `expr2` are the first and second entries of `args`;
a missing entry is a null child pointer in C++). -/
inductive Expr where
  | mk (etype : ExprType) (opType : OpType) (opChar : Char) (name : String)
      (ival : Int) (args : List Expr)

/-- Expression type tag accessor (`expr->type`). -/
def Expr.etypeOf : Expr → ExprType
  | .mk t _ _ _ _ _ => t

/-- Operator kind accessor (`expr->opType`). -/
def Expr.opTypeOf : Expr → OpType
  | .mk _ o _ _ _ _ => o

/-- Operator character accessor (`expr->opChar`). -/
def Expr.opCharOf : Expr → Char
  | .mk _ _ c _ _ _ => c

/-- Name payload accessor (`expr->name`). -/
def Expr.nameOf : Expr → String
  | .mk _ _ _ n _ _ => n

/-- Integer payload accessor (`expr->ival`). -/
def Expr.ivalOf : Expr → Int
  | .mk _ _ _ _ i _ => i

/-- Child list accessor. -/
def Expr.argsOf : Expr → List Expr
  | .mk _ _ _ _ _ a => a

/-- Convenience constructors for concrete AST nodes. -/
def intLit (n : Int) : Expr := Expr.mk .literalInt .opNone '\x00' "" n []

/-- A string literal expression; its `ival` field is unused by the parser
and left at zero. -/
def strLit (s : String) : Expr := Expr.mk .literalString .opNone '\x00' s 0 []

/-- A column reference expression. -/
def colRef (c : String) : Expr := Expr.mk .columnRef .opNone '\x00' c 0 []

/-- A `*` item in a SELECT list. -/
def starExpr : Expr := Expr.mk .star .opNone '\x00' "" 0 []

/-- An equality expression `l = r`. -/
def eqExpr (l r : Expr) : Expr := Expr.mk .operator .opSimple '=' "" 0 [l, r]

/-- A conjunction `l AND r`. -/
def andExpr (l r : Expr) : Expr := Expr.mk .operator .opAnd '\x00' "" 0 [l, r]

/-- A disjunction `l OR r` (unsupported by the engine). -/
def orExpr (l r : Expr) : Expr := Expr.mk .operator .opOr '\x00' "" 0 [l, r]

/-- `get_where_conjunction` (SQLExec.cpp:154): pulls a conjunction of
equality predicates out of a WHERE-clause parse tree.  A non-operator node
throws "Invalid statement"; AND recurses on both children and merges the
maps (`map::insert`, first binding wins); `opChar == '='` reads the left
child's `name` and requires an int or string literal on the right; any
other operator falls out of the if/else-if chain and returns the empty map
built at the top of the function.  (A null child dereference is undefined
behaviour in C++; here it is modelled as the "Invalid statement" error.) -/
def get_where_conjunction : Expr → Except DbError ValueDict
  | Expr.mk t o c _ _ args =>
    if t ≠ ExprType.operator then
      Except.error (DbError.dbRelationError "Invalid statement")
    else if o = OpType.opAnd then
      match args with
      | a :: b :: _ =>
        match get_where_conjunction a with
        | Except.error e => Except.error e
        | Except.ok first =>
          match get_where_conjunction b with
          | Except.error e => Except.error e
          | Except.ok second => Except.ok (vdInsertAll (vdInsertAll [] first) second)
      | _ => Except.error (DbError.dbRelationError "Invalid statement")
    else if c = '=' then
      match args with
      | l :: r :: _ =>
        if r.etypeOf = ExprType.literalInt then
          Except.ok (vdSet [] l.nameOf (Value.int (int32 r.ivalOf)))
        else if r.etypeOf = ExprType.literalString then
          Except.ok (vdSet [] l.nameOf (Value.text r.nameOf))
        else Except.error (DbError.dbRelationError (dontKnowMsg r.etypeOf))
      | _ => Except.error (DbError.dbRelationError "Invalid statement")
    else Except.ok []

/-- `get_column_type` (SQLExec.cpp:94): linear search of the schema column
list, returning the matching attribute or throwing "unkown column" (sic). -/
def get_column_type (column : String) :
    List String → List DataType → Except DbError DataType
  | c :: cs, t :: ts =>
      if c = column then Except.ok t else get_column_type column cs ts
  | _, _ => Except.error (DbError.sqlExecError ("unkown column " ++ column))

/-- The whole engine state: the three catalog relations, the store of
physically created user relations (name-keyed), and the set of physically
created indices (keyed by table and index name).  Modelled from the spec's
catalog and storage description; the `Tables`/`Indices` singletons of the
source are this state. -/
structure DbState where
  tablesRel : DbRelation
  columnsRel : DbRelation
  indicesRel : DbRelation
  store : List (String × DbRelation)
  physIndices : List (String × String)
deriving DecidableEq, Repr

/-- Lookup of a user relation in the physical store. -/
def storeLookup : List (String × DbRelation) → String → Option DbRelation
  | [], _ => none
  | (k, v) :: rest, n => if k = n then some v else storeLookup rest n

/-- Replace a user relation in the physical store (no-op entry append when
absent; only reached for names the executors have opened). -/
def storeSet : List (String × DbRelation) → String → DbRelation →
    List (String × DbRelation)
  | [], n, r => [(n, r)]
  | (k, v) :: rest, n, r =>
      if k = n then (n, r) :: rest else (k, v) :: storeSet rest n r

/-- Remove a user relation from the physical store (`DbRelation::drop`). -/
def storeErase (s : List (String × DbRelation)) (n : String) :
    List (String × DbRelation) :=
  s.filter (fun p => decide (p.1 ≠ n))

/-- Modelled from the spec: the schema of a relation as recorded in
`_columns` (scan order = insertion order), used by `Tables::get_table` to
instantiate a storage-backed relation on demand (schema_tables is not in
the provided source). -/
def schemaPairs (db : DbState) (name : String) : List (String × DataType) :=
  (db.columnsRel.rows.filter
      (fun p => decide (vdLookup p.2 "table_name" = some (Value.text name)))).map
    (fun p =>
      (textOf (vdLookup p.2 "column_name"),
        if vdLookup p.2 "data_type" = some (Value.text "INT") then DataType.INT
        else DataType.TEXT))

/-- Modelled from the spec: `Tables::get_table(name)` — the catalog objects
themselves for the three meta-relations, a stored relation when physically
created, otherwise a fresh relation instantiated from the `_columns`
schema. -/
def DbState.get_table (db : DbState) (name : String) : DbRelation :=
  if name = "_tables" then db.tablesRel
  else if name = "_columns" then db.columnsRel
  else if name = "_indices" then db.indicesRel
  else
    match storeLookup db.store name with
    | some r => r
    | none =>
        let pairs := schemaPairs db name
        { columnNames := pairs.map Prod.fst, columnAttrs := pairs.map Prod.snd,
          rows := [], next := 0 }

/-- Write back a mutated relation under its name. -/
def DbState.setTable (db : DbState) (name : String) (r : DbRelation) : DbState :=
  if name = "_tables" then { db with tablesRel := r }
  else if name = "_columns" then { db with columnsRel := r }
  else if name = "_indices" then { db with indicesRel := r }
  else { db with store := storeSet db.store name r }

/-- Modelled from the spec: `Indices::get_index_names(table)` — the distinct
index names recorded in `_indices` for the table, in scan order. -/
def get_index_names (db : DbState) (t : String) : List String :=
  ((db.indicesRel.rows.filter
        (fun p => decide (vdLookup p.2 "table_name" = some (Value.text t)))).map
      (fun p => textOf (vdLookup p.2 "index_name"))).foldl
    (fun acc x => if x ∈ acc then acc else acc ++ [x]) []

/-- Modelled from the spec: the evaluation-plan tree of `EvalPlan.h` (not in
the provided source).  `tableScan` optionally carries a pushed predicate;
`selectP` filters its child's handle stream; `projectP` materializes rows. -/
inductive EvalPlan where
  | tableScan (r : DbRelation) (pushed : Option ValueDict)
  | selectP (w : ValueDict) (child : EvalPlan)
  | projectP (cols : List String) (child : EvalPlan)

/-- Modelled from the spec: the optimizer's single rewrite — a `Select`
directly enclosing an unconstrained `TableScan` collapses into a scan with
a pushed predicate. -/
def EvalPlan.optimize : EvalPlan → EvalPlan
  | .tableScan r p => .tableScan r p
  | .selectP w child =>
      match child.optimize with
      | .tableScan r none => .tableScan r (some w)
      | c => .selectP w c
  | .projectP cols child => .projectP cols child.optimize

/-- Modelled from the spec: `pipeline()` — the `(relation, handles)` pair
matching the plan. -/
def EvalPlan.pipeline : EvalPlan → DbRelation × List Nat
  | .tableScan r none => (r, r.selectAll)
  | .tableScan r (some w) => (r, r.selectWhere w)
  | .selectP w child =>
      let (r, hs) := child.pipeline
      (r, hs.filter (fun h => vdMatches (rowAt r.rows h) w))
  | .projectP _ child => child.pipeline

/-- Modelled from the spec: `evaluate()` — a row list; only a `Project`
root is a supported plan shape. -/
def EvalPlan.evaluate : EvalPlan → Except DbError (List ValueDict)
  | .projectP cols child =>
      let (r, hs) := child.pipeline
      Except.ok (hs.map (fun h => r.project h cols))
  | _ => Except.error (DbError.dbRelationError "Unexpected plan type to evaluate")

/-- hsql `ColumnDefinition::DataType` for CREATE TABLE column clauses. -/
inductive ColType where
  | int
  | text
  | double
  | otherT
deriving DecidableEq, Repr

/-- A parsed CREATE TABLE column definition. -/
structure ColumnDef where
  name : String
  ctype : ColType
deriving DecidableEq, Repr

/-- `SQLExec::column_definition` (SQLExec.cpp:262): INT and TEXT map to the
column attribute; DOUBLE and everything else throw "unrecognized data
type". -/
def column_definition (c : ColumnDef) : Except DbError (String × DataType) :=
  match c.ctype with
  | .int => Except.ok (c.name, DataType.INT)
  | .text => Except.ok (c.name, DataType.TEXT)
  | _ => Except.error (DbError.sqlExecError "unrecognized data type")

/-- The column-definition loop at the top of `create_table` (runs to
completion before any catalog row is inserted). -/
def parseCols : List ColumnDef → Except DbError (List (String × DataType))
  | [] => Except.ok []
  | c :: rest =>
      match column_definition c with
      | Except.error e => Except.error e
      | Except.ok p =>
          match parseCols rest with
          | Except.error e => Except.error e
          | Except.ok ps => Except.ok (p :: ps)

/-- Storage-fault injection points for CREATE TABLE: the `_columns` insert
loop can throw before performing its `i`-th insert (with the given storage
message), the physical `create` can throw, and the two best-effort rollback
loops can themselves throw (the `_columns` rollback before its `k`-th
deletion). -/
structure CtFaults where
  failColInsertAt : Option (Nat × String)
  failCreate : Option String
  failRollbackColsAt : Option Nat
  failRollbackTables : Bool
deriving DecidableEq, Repr

/-- A fault-free CREATE TABLE execution. -/
def noCtFaults : CtFaults :=
  { failColInsertAt := none, failCreate := none, failRollbackColsAt := none,
    failRollbackTables := false }

/-- The `_columns` row inserted for one column: the reused `row` dict with
`table_name` plus the overwritten `column_name` and `data_type`. -/
def colDefRow (tname cname : String) (dt : DataType) : ValueDict :=
  vdSet (vdSet (vdSet [] "table_name" (Value.text tname)) "column_name"
      (Value.text cname))
    "data_type" (Value.text (if dt = DataType.INT then "INT" else "TEXT"))

/-- The two nested catch blocks of `create_table` (SQLExec.cpp:323-338):
delete the recorded `_columns` handles (stopping early if the rollback
itself throws, which is swallowed), then delete the `_tables` row (also
best-effort), and let the original error propagate. -/
def ctRollback (db : DbState) (c_hs : List Nat) (t_h : Nat) (f : CtFaults) :
    DbState :=
  let delList := match f.failRollbackColsAt with
    | some k => c_hs.take k
    | none => c_hs
  let cols2 := delRows db.columnsRel delList
  let tables2 := if f.failRollbackTables then db.tablesRel
    else db.tablesRel.delRow t_h
  { db with columnsRel := cols2, tablesRel := tables2 }

/-- The physical-creation step of `create_table`: `get_table` then `create`
or `create_if_not_exists`.  An injected fault throws first; otherwise
creating an already-present relation fails (storage behaviour, modelled
from the spec) and a successful create adds the relation to the store. -/
def ctCreatePhase (db : DbState) (tname : String) (ifNotExists : Bool)
    (failCreate : Option String) : Except DbError DbState :=
  match failCreate with
  | some m => Except.error (DbError.dbRelationError m)
  | none =>
      let rel := db.get_table tname
      match storeLookup db.store tname with
      | some _ =>
          if ifNotExists then Except.ok db
          else Except.error
            (DbError.dbRelationError ("a relation with name " ++ tname ++ " already exists"))
      | none => Except.ok { db with store := storeSet db.store tname rel }

/-- `SQLExec::create_table` (SQLExec.cpp:290): parse the column definitions,
insert the `_tables` row, insert one `_columns` row per column (recording
the handles), physically create the relation; on any failure after the
`_tables` insert, run the nested rollback and rethrow the original error. -/
def create_table (db : DbState) (tname : String) (cols : List ColumnDef)
    (ifNotExists : Bool) (f : CtFaults) : DbState × Except DbError QueryResult :=
  match parseCols cols with
  | Except.error e => (db, Except.error e)
  | Except.ok parsed =>
    let (t_h, tablesRel1) := db.tablesRel.insertRow (vdSet [] "table_name" (Value.text tname))
    let db1 := { db with tablesRel := tablesRel1 }
    let colRows := parsed.map (fun p => colDefRow tname p.1 p.2)
    let failIdx : Option (Nat × String) :=
      match f.failColInsertAt with
      | some jm => if jm.1 < colRows.length then some jm else none
      | none => none
    match failIdx with
    | some jm =>
        let (c_hs, colsRel1) := insertMany db1.columnsRel (colRows.take jm.1)
        (ctRollback { db1 with columnsRel := colsRel1 } c_hs t_h f,
          Except.error (DbError.dbRelationError jm.2))
    | none =>
        let (c_hs, colsRel1) := insertMany db1.columnsRel colRows
        let db2 := { db1 with columnsRel := colsRel1 }
        match ctCreatePhase db2 tname ifNotExists f.failCreate with
        | Except.ok db3 => (db3, Except.ok (QueryResult.msg ("created " ++ tname)))
        | Except.error e => (ctRollback db2 c_hs t_h f, Except.error e)

/-- Storage-fault injection points for CREATE INDEX: the `_indices` insert
loop can throw before its `j`-th insert, the physical index `create` can
throw, and the best-effort rollback loop can throw before its `k`-th
deletion. -/
structure IxFaults where
  failInsertAt : Option (Nat × String)
  failCreate : Option String
  failRollbackAt : Option Nat
deriving DecidableEq, Repr

/-- A fault-free CREATE INDEX execution. -/
def noIxFaults : IxFaults :=
  { failInsertAt := none, failCreate := none, failRollbackAt := none }

/-- The reused `row` dict of `create_index` before the loop: table name,
index name, index type, and `is_unique = (index_type == "BTREE")`. -/
def baseIxRow (t i ty : String) : ValueDict :=
  vdSet (vdSet (vdSet (vdSet [] "table_name" (Value.text t)) "index_name"
        (Value.text i))
      "index_type" (Value.text ty))
    "is_unique" (Value.bool (decide (ty = "BTREE")))

/-- The `_indices` rows inserted by the `create_index` loop from sequence
number `seq`: each listed column, in order, gets the base row with
`seq_in_index` (1-based, gap-free) and `column_name` overwritten. -/
def indexRowsFrom (t i ty : String) (seq : Nat) : List String → List ValueDict
  | [] => []
  | c :: rest =>
      vdSet (vdSet (baseIxRow t i ty) "seq_in_index" (Value.int (Int.ofNat (seq + 1))))
        "column_name" (Value.text c)
        :: indexRowsFrom t i ty (seq + 1) rest

/-- The column-existence check at the top of `create_index` (fails with
"Column 'X' does not exist in T" before anything is inserted). -/
def checkColsExist (tname : String) (tcols : List String) :
    List String → Except DbError Unit
  | [] => Except.ok ()
  | c :: rest =>
      if c ∈ tcols then checkColsExist tname tcols rest
      else Except.error
        (DbError.sqlExecError ("Column '" ++ c ++ "' does not exist in " ++ tname))

/-- The best-effort rollback of `create_index` (SQLExec.cpp:373-380):
delete the recorded `_indices` handles, stopping early if the rollback
itself throws (swallowed); the original error propagates. -/
def ixRollback (db : DbState) (ixRel : DbRelation) (i_hs : List Nat)
    (f : IxFaults) : DbState :=
  let delList := match f.failRollbackAt with
    | some k => i_hs.take k
    | none => i_hs
  { db with indicesRel := delRows ixRel delList }

/-- The physical-creation step of `create_index`: `get_index` then
`create`.  An injected fault throws first; creating an already-present
index fails (storage behaviour, modelled from the spec); success records
the physical index. -/
def ixCreatePhase (db : DbState) (t i : String) (failCreate : Option String) :
    Except DbError DbState :=
  match failCreate with
  | some m => Except.error (DbError.dbRelationError m)
  | none =>
      if (t, i) ∈ db.physIndices then
        Except.error (DbError.dbRelationError ("duplicate index " ++ i))
      else Except.ok { db with physIndices := db.physIndices ++ [(t, i)] }

/-- `SQLExec::create_index` (SQLExec.cpp:342): resolve the relation, check
the listed columns exist, insert one `_indices` row per column in listed
order with `seq_in_index` 1..n (recording the handles), physically create
the index; on any failure, best-effort delete the inserted rows and
rethrow the original error. -/
def create_index (db : DbState) (t i ty : String) (cols : List String)
    (f : IxFaults) : DbState × Except DbError QueryResult :=
  let table := db.get_table t
  match checkColsExist t table.columnNames cols with
  | Except.error e => (db, Except.error e)
  | Except.ok _ =>
    let rowsToIns := indexRowsFrom t i ty 0 cols
    let failIdx : Option (Nat × String) :=
      match f.failInsertAt with
      | some jm => if jm.1 < rowsToIns.length then some jm else none
      | none => none
    match failIdx with
    | some jm =>
        let (i_hs, ixRel1) := insertMany db.indicesRel (rowsToIns.take jm.1)
        (ixRollback db ixRel1 i_hs f, Except.error (DbError.dbRelationError jm.2))
    | none =>
        let (i_hs, ixRel1) := insertMany db.indicesRel rowsToIns
        let db1 := { db with indicesRel := ixRel1 }
        match ixCreatePhase db1 t i f.failCreate with
        | Except.ok db2 => (db2, Except.ok (QueryResult.msg ("created index " ++ i)))
        | Except.error e => (ixRollback db ixRel1 i_hs f, Except.error e)

/-- `SQLExec::drop_table` (SQLExec.cpp:396): reject `_tables` and
`_columns` ("cannot drop a schema table"); otherwise drop every physical
index on the table, delete the table's `_indices` rows, delete its
`_columns` rows, physically drop the relation, and delete its `_tables`
row (the source dereferences `handles->begin()` expecting one row; an
empty result, undefined in C++, is modelled as no deletion). -/
def drop_table (db : DbState) (tname : String) :
    DbState × Except DbError QueryResult :=
  if tname = "_tables" ∨ tname = "_columns" then
    (db, Except.error (DbError.sqlExecError "cannot drop a schema table"))
  else
    let whereTn : ValueDict := vdSet [] "table_name" (Value.text tname)
    let ixNames := get_index_names db tname
    let db1 := { db with physIndices :=
      db.physIndices.filter (fun p => decide (¬ (p.1 = tname ∧ p.2 ∈ ixNames))) }
    let ixHandles := db1.indicesRel.selectWhere whereTn
    let db2 := { db1 with indicesRel := delRows db1.indicesRel ixHandles }
    let colHandles := db2.columnsRel.selectWhere whereTn
    let db3 := { db2 with columnsRel := delRows db2.columnsRel colHandles }
    let db4 := { db3 with store := storeErase db3.store tname }
    let tHandles := db4.tablesRel.selectWhere whereTn
    let db5 := match tHandles with
      | h :: _ => { db4 with tablesRel := db4.tablesRel.delRow h }
      | [] => db4
    (db5, Except.ok (QueryResult.msg ("dropped " ++ tname)))

/-- `SQLExec::drop_index` (SQLExec.cpp:435): physically drop the index,
then delete all `_indices` rows matching the table and index name. -/
def drop_index (db : DbState) (tname iname : String) :
    DbState × Except DbError QueryResult :=
  let db1 := { db with physIndices :=
    db.physIndices.filter (fun p => decide (¬ (p.1 = tname ∧ p.2 = iname))) }
  let wh := vdSet (vdSet [] "table_name" (Value.text tname)) "index_name"
    (Value.text iname)
  let handles := db1.indicesRel.selectWhere wh
  let db2 := { db1 with indicesRel := delRows db1.indicesRel handles }
  (db2, Except.ok (QueryResult.msg ("dropped index " ++ iname)))

/-- The row-building loop of `SQLExec::insert` (SQLExec.cpp:113-128): for
each supplied value, look up the listed column's declared type and store
`Value(expr->ival)` for an INT column or `Value(expr->name)` for a TEXT
column — the literal's own kind is never inspected; a declared type other
than INT or TEXT throws "don't know how to handle data type in INSERT". -/
def buildInsertRow (cols : List String) (ctypes : List DataType) :
    List (String × Expr) → ValueDict → Except DbError ValueDict
  | [], row => Except.ok row
  | (c, v) :: rest, row =>
      match get_column_type c cols ctypes with
      | Except.error e => Except.error e
      | Except.ok DataType.INT =>
          buildInsertRow cols ctypes rest (vdSet row c (Value.int (int32 v.ivalOf)))
      | Except.ok DataType.TEXT =>
          buildInsertRow cols ctypes rest (vdSet row c (Value.text v.nameOf))
      | Except.ok _ =>
          Except.error (DbError.sqlExecError "don't know how to handle data type in INSERT")

/-- `SQLExec::insert` (SQLExec.cpp:104): build the row from the statement's
column/value lists (the loop runs over the values, pairing each with the
correspondingly listed column — columns may be listed in any order),
insert it, add the new handle to every index on the table, and report
"successfully inserted 1 row into T", with an "and from k indices" suffix
when the table has indices. -/
def insert (db : DbState) (tname : String) (insCols : List String)
    (insVals : List Expr) : DbState × Except DbError QueryResult :=
  let table := db.get_table tname
  match buildInsertRow table.columnNames table.columnAttrs
      (insCols.zip insVals) [] with
  | Except.error e => (db, Except.error e)
  | Except.ok row =>
      let (_, table1) := table.insertRow row
      let db1 := db.setTable tname table1
      let index_names := get_index_names db1 tname
      let suffix := if 0 < index_names.length then
          " and from " ++ toString index_names.length ++ " indices"
        else ""
      (db1, Except.ok (QueryResult.msg
        ("successfully inserted 1 row into " ++ tname ++ suffix)))

/-- `SQLExec::del` (SQLExec.cpp:188): build a table-scan plan, wrap it in a
select when a WHERE clause is present, optimize, pipeline to handles, then
for each handle remove it from every index and delete it from the table;
report the row and per-handle index deletion counts. -/
def del (db : DbState) (tname : String) (whereClause : Option Expr) :
    DbState × Except DbError QueryResult :=
  let table := db.get_table tname
  let planOrErr : Except DbError EvalPlan :=
    match whereClause with
    | none => Except.ok (EvalPlan.tableScan table none)
    | some e =>
        match get_where_conjunction e with
        | Except.error err => Except.error err
        | Except.ok w => Except.ok (EvalPlan.selectP w (EvalPlan.tableScan table none))
  match planOrErr with
  | Except.error e => (db, Except.error e)
  | Except.ok plan =>
      let (_, handles) := plan.optimize.pipeline
      let index_names := get_index_names db tname
      let table1 := delRows table handles
      let db1 := db.setTable tname table1
      let rowCount := handles.length
      let idxCount := handles.length * index_names.length
      (db1, Except.ok (QueryResult.msg
        ("successfully deleted " ++ toString rowCount ++ " rows from " ++ tname
          ++ " " ++ toString idxCount ++ " indices")))

/-- The column attributes for a list of requested names (`DbRelation::
get_column_attributes(ColumnNames)`, modelled from the spec). -/
def attrsForNames (table : DbRelation) (names : List String) : List DataType :=
  names.filterMap (fun c =>
    match get_column_type c table.columnNames table.columnAttrs with
    | Except.ok t => some t
    | Except.error _ => none)

/-- `SQLExec::select` (SQLExec.cpp:219): scan plan, optional select wrap
from the WHERE clause, then a project node.  The source computes
`column_attributes` from the still-empty `column_names` vector (the §9
attribute-ordering bug), so the attribute list is always empty; the
column-name list expands `*` to the table's columns in declared order and
keeps explicit names in listed order. -/
def selectExec (db : DbState) (tname : String) (selectList : List Expr)
    (whereClause : Option Expr) : Except DbError QueryResult :=
  let table := db.get_table tname
  let planOrErr : Except DbError EvalPlan :=
    match whereClause with
    | none => Except.ok (EvalPlan.tableScan table none)
    | some e =>
        match get_where_conjunction e with
        | Except.error err => Except.error err
        | Except.ok w => Except.ok (EvalPlan.selectP w (EvalPlan.tableScan table none))
  match planOrErr with
  | Except.error e => Except.error e
  | Except.ok plan1 =>
      let column_attributes := attrsForNames table []
      let column_names := selectList.foldl
        (fun acc s =>
          if s.etypeOf = ExprType.star then acc ++ table.columnNames
          else acc ++ [s.nameOf])
        []
      let plan2 := EvalPlan.projectP column_names plan1
      match plan2.optimize.evaluate with
      | Except.error e => Except.error e
      | Except.ok rows =>
          Except.ok (QueryResult.table column_names column_attributes rows
            ("successfully return " ++ toString rows.length ++ " rows"))

/-- `SQLExec::show_tables` (SQLExec.cpp:504): scan `_tables`, report
`handles->size() - 3` in the message (`u_long` subtraction, modelled with
the 64-bit wraparound), and output the projected rows whose `table_name`
is none of the three meta-relations. -/
def show_tables (db : DbState) : QueryResult :=
  let column_names := ["table_name"]
  let column_attributes := [DataType.TEXT]
  let handles := db.tablesRel.selectAll
  let n : Nat := (handles.length + (2 ^ 64 - 3)) % 2 ^ 64
  let rows := handles.filterMap (fun h =>
    let row := db.tablesRel.project h column_names
    let tn := textOf (vdLookup row "table_name")
    if tn ≠ "_tables" ∧ tn ≠ "_columns" ∧ tn ≠ "_indices" then some row else none)
  QueryResult.table column_names column_attributes rows
    ("successfully returned " ++ toString n ++ " rows")

/-- `SQLExec::show_columns` (SQLExec.cpp:527): `_columns` filtered by the
table name, projected on the three columns; the attribute list has length
one (the §9 bug kept as-is). -/
def show_columns (db : DbState) (t : String) : QueryResult :=
  let column_names := ["table_name", "column_name", "data_type"]
  let column_attributes := [DataType.TEXT]
  let w := vdSet [] "table_name" (Value.text t)
  let handles := db.columnsRel.selectWhere w
  let rows := handles.map (fun h => db.columnsRel.project h column_names)
  QueryResult.table column_names column_attributes rows
    ("successfully returned " ++ toString handles.length ++ " rows")

/-- `SQLExec::show_index` (SQLExec.cpp:469): `_indices` filtered by the
table name, projected on the six catalog columns in the source's push
order. -/
def show_index (db : DbState) (t : String) : QueryResult :=
  let column_names :=
    ["table_name", "index_name", "column_name", "seq_in_index", "index_type", "is_unique"]
  let column_attributes :=
    [DataType.TEXT, DataType.TEXT, DataType.TEXT, DataType.INT, DataType.TEXT,
      DataType.BOOLEAN]
  let w := vdSet [] "table_name" (Value.text t)
  let handles := db.indicesRel.selectWhere w
  let rows := handles.map (fun h => db.indicesRel.project h column_names)
  QueryResult.table column_names column_attributes rows
    ("successfully returned " ++ toString handles.length ++ " rows")

/-- SHOW statement sub-kinds (`ShowStatement::ShowType`); `otherS` stands
for any sub-kind outside the three handled ones. -/
inductive ShowSub where
  | tables
  | columns (tableName : String)
  | index (tableName : String)
  | otherS

/-- `SQLExec::show` (SQLExec.cpp:456): dispatch on the SHOW sub-kind; an
unrecognized sub-kind THROWS `SQLExecError("unrecognized SHOW type")`
rather than returning a message-only result. -/
def showDispatch (db : DbState) : ShowSub → Except DbError QueryResult
  | .tables => Except.ok (show_tables db)
  | .columns t => Except.ok (show_columns db t)
  | .index t => Except.ok (show_index db t)
  | .otherS => Except.error (DbError.sqlExecError "unrecognized SHOW type")

/-- CREATE statement sub-kinds; `otherC` covers `CreateStatement::type`
values other than kTable and kIndex. -/
inductive CreateSub where
  | table (tableName : String) (columns : List ColumnDef) (ifNotExists : Bool)
  | index (tableName indexName indexType : String) (indexColumns : List String)
  | otherC

/-- DROP statement sub-kinds; `otherD` covers the unhandled values. -/
inductive DropSub where
  | table (name : String)
  | index (name indexName : String)
  | otherD

/-- The statement kinds dispatched by `SQLExec::execute`; `otherStmt`
covers every kind outside the six handled cases. -/
inductive Statement where
  | createS (s : CreateSub)
  | dropS (s : DropSub)
  | showS (s : ShowSub)
  | insertS (tableName : String) (columns : List String) (values : List Expr)
  | deleteS (tableName : String) (whereClause : Option Expr)
  | selectS (tableName : String) (selectList : List Expr) (whereClause : Option Expr)
  | otherStmt

/-- `SQLExec::create` (SQLExec.cpp:279): dispatch to table or index
creation; other CREATE kinds get a message-only result. -/
def createDispatch (db : DbState) (f : CtFaults) (g : IxFaults) :
    CreateSub → DbState × Except DbError QueryResult
  | .table n cols ine => create_table db n cols ine f
  | .index t i ty cols => create_index db t i ty cols g
  | .otherC => (db, Except.ok (QueryResult.msg "Only CREATE TABLE and CREATE INDEX are implemented"))

/-- `SQLExec::drop` (SQLExec.cpp:385): dispatch to table or index drop;
other DROP kinds get a message-only result (the source's message really
says "CREATE INDEX"). -/
def dropDispatch (db : DbState) : DropSub → DbState × Except DbError QueryResult
  | .table n => drop_table db n
  | .index t i => drop_index db t i
  | .otherD => (db, Except.ok (QueryResult.msg "Only DROP TABLE and CREATE INDEX are implemented"))

/-- The catch block of `SQLExec::execute` (SQLExec.cpp:89-91): a
`DbRelationError` escaping a handler is rewrapped as
`SQLExecError("DbRelationError: " + what)`. -/
def wrapDbRelationError (r : Except DbError QueryResult) :
    Except DbError QueryResult :=
  match r with
  | Except.error (DbError.dbRelationError m) =>
      Except.error (DbError.sqlExecError ("DbRelationError: " ++ m))
  | x => x

/-- `SQLExec::execute` (SQLExec.cpp:65): dispatch on the statement kind;
unhandled kinds return the message-only result "not implemented";
`DbRelationError`s are rewrapped.  Storage faults are not injected on this
path (the fault-carrying entry points are `create_table`/`create_index`). -/
def execute (db : DbState) : Statement → DbState × Except DbError QueryResult
  | .createS s =>
      let (db', r) := createDispatch db noCtFaults noIxFaults s
      (db', wrapDbRelationError r)
  | .dropS s =>
      let (db', r) := dropDispatch db s
      (db', wrapDbRelationError r)
  | .showS s => (db, wrapDbRelationError (showDispatch db s))
  | .insertS t cols vals =>
      let (db', r) := insert db t cols vals
      (db', wrapDbRelationError r)
  | .deleteS t w =>
      let (db', r) := del db t w
      (db', wrapDbRelationError r)
  | .selectS t sel w => (db, wrapDbRelationError (selectExec db t sel w))
  | .otherStmt => (db, Except.ok (QueryResult.msg "not implemented"))

/-- The `_tables` catalog relation of a freshly initialized database:
its schema plus the three self-rows (modelled from the spec's catalog
bootstrap; schema_tables is not in the provided source). -/
def initialTables : DbRelation :=
  { columnNames := ["table_name"], columnAttrs := [DataType.TEXT],
    rows :=
      [(0, [("table_name", Value.text "_tables")]),
        (1, [("table_name", Value.text "_columns")]),
        (2, [("table_name", Value.text "_indices")])],
    next := 3 }

/-- One `_columns` bootstrap row. -/
def colRow3 (t c d : String) : ValueDict :=
  [("table_name", Value.text t), ("column_name", Value.text c),
    ("data_type", Value.text d)]

/-- The `_columns` catalog relation of a freshly initialized database:
the schema rows of the three meta-relations (modelled from the spec). -/
def initialColumns : DbRelation :=
  { columnNames := ["table_name", "column_name", "data_type"],
    columnAttrs := [DataType.TEXT, DataType.TEXT, DataType.TEXT],
    rows :=
      [(0, colRow3 "_tables" "table_name" "TEXT"),
        (1, colRow3 "_columns" "table_name" "TEXT"),
        (2, colRow3 "_columns" "column_name" "TEXT"),
        (3, colRow3 "_columns" "data_type" "TEXT"),
        (4, colRow3 "_indices" "table_name" "TEXT"),
        (5, colRow3 "_indices" "index_name" "TEXT"),
        (6, colRow3 "_indices" "seq_in_index" "INT"),
        (7, colRow3 "_indices" "column_name" "TEXT"),
        (8, colRow3 "_indices" "index_type" "TEXT"),
        (9, colRow3 "_indices" "is_unique" "BOOLEAN")],
    next := 10 }

/-- The `_indices` catalog relation of a freshly initialized database:
empty, with the six-column schema. -/
def initialIndices : DbRelation :=
  { columnNames :=
      ["table_name", "index_name", "seq_in_index", "column_name", "index_type",
        "is_unique"],
    columnAttrs :=
      [DataType.TEXT, DataType.TEXT, DataType.INT, DataType.TEXT, DataType.TEXT,
        DataType.BOOLEAN],
    rows := [], next := 0 }

/-- A freshly initialized, otherwise empty database. -/
def initialDb : DbState :=
  { tablesRel := initialTables, columnsRel := initialColumns,
    indicesRel := initialIndices, store := [], physIndices := [] }

/-- C2 (counterexample): the drop-table guard tests only `_tables` and
`_columns`, so `DROP TABLE _indices` is NOT rejected with "cannot drop a
schema table": on a freshly initialized database it succeeds with
"dropped _indices" and mutates the catalog (the `_columns` bootstrap rows
of `_indices` and its `_tables` self-row are deleted). -/
theorem drop_table_indices_not_rejected :
    (execute initialDb (Statement.dropS (DropSub.table "_indices"))).2
        = Except.ok (QueryResult.msg "dropped _indices") ∧
      (execute initialDb
          (Statement.dropS (DropSub.table "_indices"))).1.columnsRel.rows.length = 4 ∧
      initialDb.columnsRel.rows.length = 10 ∧
      (execute initialDb
          (Statement.dropS (DropSub.table "_indices"))).1.tablesRel.rows.length = 2 ∧
      initialDb.tablesRel.rows.length = 3 := by
  refine ⟨rfl, rfl, rfl, rfl, rfl⟩

/-- C2 (amended): for every database state, DROP TABLE on `_tables` or on
`_columns` fails with "cannot drop a schema table" and leaves the state
completely unchanged; `_indices` is not covered by the guard. -/
theorem drop_table_schema_guard (db : DbState) :
    execute db (Statement.dropS (DropSub.table "_tables"))
        = (db, Except.error (DbError.sqlExecError "cannot drop a schema table")) ∧
      execute db (Statement.dropS (DropSub.table "_columns"))
        = (db, Except.error (DbError.sqlExecError "cannot drop a schema table")) := by
  refine ⟨rfl, rfl⟩

/-- C3 (counterexample): an unrecognized SHOW sub-kind does not yield a
message-only result — `execute` propagates the thrown
`SQLExecError("unrecognized SHOW type")`. -/
theorem show_other_subkind_throws :
    (execute initialDb (Statement.showS ShowSub.otherS)).2
      = Except.error (DbError.sqlExecError "unrecognized SHOW type") := by
  rfl

/-- C3 (amended): unhandled top-level statement kinds and unhandled
CREATE/DROP sub-kinds are returned as message-only results without an
error, but an unrecognized SHOW sub-kind throws
`SQLExecError("unrecognized SHOW type")`. -/
theorem execute_unimplemented_kinds (db : DbState) :
    execute db Statement.otherStmt
        = (db, Except.ok (QueryResult.msg "not implemented")) ∧
      execute db (Statement.createS CreateSub.otherC)
        = (db, Except.ok (QueryResult.msg "Only CREATE TABLE and CREATE INDEX are implemented")) ∧
      execute db (Statement.dropS DropSub.otherD)
        = (db, Except.ok (QueryResult.msg "Only DROP TABLE and CREATE INDEX are implemented")) ∧
      (execute db (Statement.showS ShowSub.otherS)).2
        = Except.error (DbError.sqlExecError "unrecognized SHOW type") := by
  refine ⟨rfl, rfl, rfl, rfl⟩

/-- C4 (counterexample): an OR expression — an operator that is neither AND
nor `=` — does not fail: the extractor falls out of its if/else-if chain
and returns the empty predicate map. -/
theorem gwc_or_returns_empty_map :
    get_where_conjunction
        (orExpr (eqExpr (colRef "a") (intLit 1)) (eqExpr (colRef "b") (intLit 2)))
      = Except.ok [] := by
  rfl

/-- C4 (amended): the extractor fails for a non-operator node ("Invalid
statement") and for an equality whose right side is not an int/string
literal ("Don't know how to handle …"), but an operator node that is
neither AND nor `=` (OR, NOT, other comparison operators) silently yields
an empty predicate map, and the left side of `=` is never checked to be a
column reference. -/
theorem gwc_shape_behaviour (e : Expr) :
    (e.etypeOf ≠ ExprType.operator →
        get_where_conjunction e
          = Except.error (DbError.dbRelationError "Invalid statement")) ∧
      (e.etypeOf = ExprType.operator → e.opTypeOf ≠ OpType.opAnd →
        e.opCharOf ≠ '=' → get_where_conjunction e = Except.ok []) ∧
      (∀ l r rest, e.etypeOf = ExprType.operator → e.opTypeOf ≠ OpType.opAnd →
        e.opCharOf = '=' → e.argsOf = l :: r :: rest →
        r.etypeOf ≠ ExprType.literalInt → r.etypeOf ≠ ExprType.literalString →
        get_where_conjunction e
          = Except.error (DbError.dbRelationError (dontKnowMsg r.etypeOf))) := by
  obtain ⟨t, o, c, nm, iv, args⟩ := e
  refine ⟨?_, ?_, ?_⟩
  · intro h
    simp only [Expr.etypeOf] at h
    rw [get_where_conjunction.eq_def]
    simp only []
    rw [if_pos h]
  · intro h1 h2 h3
    simp only [Expr.etypeOf] at h1
    simp only [Expr.opTypeOf] at h2
    simp only [Expr.opCharOf] at h3
    rw [get_where_conjunction.eq_def]
    simp only []
    rw [if_neg (by simp [h1]), if_neg h2, if_neg h3]
  · intro l r rest h1 h2 h3 hargs h5 h6
    simp only [Expr.etypeOf] at h1
    simp only [Expr.opTypeOf] at h2
    simp only [Expr.opCharOf] at h3
    simp only [Expr.argsOf] at hargs
    subst hargs
    rw [get_where_conjunction.eq_def]
    simp only []
    rw [if_neg (by simp [h1]), if_neg h2, if_pos h3, if_neg h5, if_neg h6]

/-- C4 (witness): the amended shape behaviour at concrete inputs — an
integer literal node fails with "Invalid statement", a NOT node returns
the empty map, and `a = 1.5` (float literal right side) fails with the
offset "Don't know how to handle " message. -/
theorem gwc_shape_behaviour_witness :
    get_where_conjunction (intLit 3)
        = Except.error (DbError.dbRelationError "Invalid statement") ∧
      get_where_conjunction (Expr.mk .operator .opNot '\x00' "" 0 [colRef "a"])
        = Except.ok [] ∧
      get_where_conjunction (Expr.mk .operator .opSimple '=' "" 0
          [colRef "a", Expr.mk .literalFloat .opNone '\x00' "" 0 []])
        = Except.error (DbError.dbRelationError (dontKnowMsg ExprType.literalFloat)) := by
  refine ⟨(gwc_shape_behaviour (intLit 3)).1 (by decide),
    (gwc_shape_behaviour (Expr.mk .operator .opNot '\x00' "" 0 [colRef "a"])).2.1
      rfl (by decide) (by decide),
    (gwc_shape_behaviour (Expr.mk .operator .opSimple '=' "" 0
        [colRef "a", Expr.mk .literalFloat .opNone '\x00' "" 0 []])).2.2
      (colRef "a") (Expr.mk .literalFloat .opNone '\x00' "" 0 []) []
      rfl (by decide) rfl rfl (by decide) (by decide)⟩

/-- The database after `CREATE TABLE t (a INT)`. -/
def dbTa : DbState :=
  (create_table initialDb "t" [⟨"a", ColType.int⟩] false noCtFaults).1

/-- C5 (counterexample): inserting the string literal "hello" into the INT
column `a` is not rejected: the engine never inspects the literal's kind,
reads the expression's (zero) `ival`, and stores `Value.int 0`. -/
theorem insert_string_into_int_accepted :
    (insert dbTa "t" ["a"] [strLit "hello"]).2
        = Except.ok (QueryResult.msg "successfully inserted 1 row into t") ∧
      ((insert dbTa "t" ["a"] [strLit "hello"]).1.get_table "t").rows
        = [(0, [("a", Value.int 0)])] := by
  refine ⟨rfl, rfl⟩

/-- The database after `CREATE TABLE t (a INT, b TEXT)`. -/
def dbTab : DbState :=
  (create_table initialDb "t" [⟨"a", ColType.int⟩, ⟨"b", ColType.text⟩] false
    noCtFaults).1

/-- C5 (amended): the INSERT type switch is driven by the column's declared
type, not by the supplied literal's kind: for ANY value expressions `v`,
`w`, an INT column stores `Value(v.ival)` and a TEXT column stores
`Value(w.name)` without error, and the "don't know how to handle data type
in INSERT" error occurs exactly when the listed column's declared type is
neither INT nor TEXT (e.g. the BOOLEAN `is_unique` column of `_indices`). -/
theorem insert_switch_is_on_declared_type (v w : Expr) :
    (insert dbTab "t" ["a", "b"] [v, w]).2
        = Except.ok (QueryResult.msg "successfully inserted 1 row into t") ∧
      ((insert dbTab "t" ["a", "b"] [v, w]).1.get_table "t").rows
        = [(0, [("a", Value.int (int32 v.ivalOf)), ("b", Value.text w.nameOf)])] ∧
      insert initialDb "_indices" ["is_unique"] [v]
        = (initialDb,
            Except.error (DbError.sqlExecError "don't know how to handle data type in INSERT")) := by
  refine ⟨rfl, rfl, rfl⟩

/-- State after `CREATE TABLE t (a INT, b TEXT)` on the empty database. -/
def c6Db1 : DbState :=
  (execute initialDb (Statement.createS
    (CreateSub.table "t" [⟨"a", ColType.int⟩, ⟨"b", ColType.text⟩] false))).1

/-- State after the out-of-order `INSERT INTO t (b, a) VALUES ("x", 7)`. -/
def c6Db2 : DbState :=
  (execute c6Db1 (Statement.insertS "t" ["b", "a"] [strLit "x", intLit 7])).1

/-- C6: the round trip `CREATE TABLE t(a INT, b TEXT); INSERT INTO t(b,a)
VALUES ("x",7); SELECT * FROM t` — with the insert's columns listed in a
different order than the declaration — succeeds at every step and yields
exactly one row with a=7 and b="x", the result columns in declared order
[a, b]. -/
theorem round_trip_insert_select :
    (execute initialDb (Statement.createS
          (CreateSub.table "t" [⟨"a", ColType.int⟩, ⟨"b", ColType.text⟩] false))).2
        = Except.ok (QueryResult.msg "created t") ∧
      (execute c6Db1 (Statement.insertS "t" ["b", "a"] [strLit "x", intLit 7])).2
        = Except.ok (QueryResult.msg "successfully inserted 1 row into t") ∧
      (execute c6Db2 (Statement.selectS "t" [starExpr] none)).2
        = Except.ok (QueryResult.table ["a", "b"] []
            [[("a", Value.int 7), ("b", Value.text "x")]]
            "successfully return 1 rows") := by
  refine ⟨rfl, rfl, rfl⟩

/-- The original error message of a faulty CREATE TABLE run: the message of
the `_columns` insert fault when one is set, otherwise the physical-create
fault message. -/
def ctOrigMsg (f : CtFaults) : String :=
  match f.failColInsertAt with
  | some jm => jm.2
  | none => f.failCreate.getD ""

/-- C1: a CREATE TABLE execution that fails after the `_tables` row was
inserted — whether during the per-column `_columns` inserts or during
physical relation creation — always rethrows the original storage error
(even when the best-effort rollback steps themselves fail), and when the
rollback steps do not fail, the rollback deletes the inserted `_columns`
rows and the `_tables` row, leaving both catalog relations with exactly
their previous rows. -/
theorem create_table_failure_rolls_back
    (db : DbState) (tname : String) (cols : List ColumnDef) (ine : Bool)
    (f : CtFaults) (parsed : List (String × DataType))
    (hwf_t : db.tablesRel.WF) (hwf_c : db.columnsRel.WF)
    (hparse : parseCols cols = Except.ok parsed)
    (hfail : (∃ j m, f.failColInsertAt = some (j, m) ∧ j < parsed.length)
      ∨ (f.failColInsertAt = none ∧ ∃ m, f.failCreate = some m)) :
    (create_table db tname cols ine f).2
        = Except.error (DbError.dbRelationError (ctOrigMsg f)) ∧
      (f.failRollbackColsAt = none → f.failRollbackTables = false →
        (create_table db tname cols ine f).1.tablesRel.rows = db.tablesRel.rows ∧
          (create_table db tname cols ine f).1.columnsRel.rows = db.columnsRel.rows) := by
  rcases hfail with ⟨j, m, hsome, hlt⟩ | ⟨hnone, m, hcreate⟩
  · have hct : create_table db tname cols ine f =
        (ctRollback
          { db with
              tablesRel := (db.tablesRel.insertRow (vdSet [] "table_name" (Value.text tname))).2,
              columnsRel := db.columnsRel.afterInsert
                (((parsed.map (fun p => colDefRow tname p.1 p.2)).take j)) }
          ((tagFrom db.columnsRel.next
              ((parsed.map (fun p => colDefRow tname p.1 p.2)).take j)).map Prod.fst)
          db.tablesRel.next f,
          Except.error (DbError.dbRelationError m)) := by
      simp only [create_table]
      rw [hparse]
      simp only [hsome, List.length_map]
      rw [if_pos hlt]
      simp only [insertMany_eq, DbRelation.insertRow]
    constructor
    · rw [hct]
      simp only [ctOrigMsg, hsome]
    · intro hrbc hrbt
      rw [hct]
      simp only [ctRollback, hrbc, hrbt]
      constructor
      · have hres := insert_delRow_restore db.tablesRel hwf_t
          (vdSet [] "table_name" (Value.text tname))
        simp only [DbRelation.insertRow, DbRelation.delRow] at hres
        simpa [DbRelation.insertRow, DbRelation.delRow] using hres
      · have hres := insertMany_delRows_restore db.columnsRel hwf_c
          ((parsed.map (fun p => colDefRow tname p.1 p.2)).take j)
          ((tagFrom db.columnsRel.next
              ((parsed.map (fun p => colDefRow tname p.1 p.2)).take j)).map Prod.fst)
          (db.columnsRel.afterInsert
            ((parsed.map (fun p => colDefRow tname p.1 p.2)).take j))
          (insertMany_eq _ db.columnsRel)
        simpa using hres
  · have hct : create_table db tname cols ine f =
        (ctRollback
          { db with
              tablesRel := (db.tablesRel.insertRow (vdSet [] "table_name" (Value.text tname))).2,
              columnsRel := db.columnsRel.afterInsert
                (parsed.map (fun p => colDefRow tname p.1 p.2)) }
          ((tagFrom db.columnsRel.next
              (parsed.map (fun p => colDefRow tname p.1 p.2))).map Prod.fst)
          db.tablesRel.next f,
          Except.error (DbError.dbRelationError m)) := by
      simp only [create_table]
      rw [hparse]
      simp only [hnone]
      simp only [insertMany_eq, DbRelation.insertRow]
      simp only [ctCreatePhase, hcreate]
    constructor
    · rw [hct]
      simp only [ctOrigMsg, hnone, hcreate, Option.getD]
    · intro hrbc hrbt
      rw [hct]
      simp only [ctRollback, hrbc, hrbt]
      constructor
      · have hres := insert_delRow_restore db.tablesRel hwf_t
          (vdSet [] "table_name" (Value.text tname))
        simp only [DbRelation.insertRow, DbRelation.delRow] at hres
        simpa [DbRelation.insertRow, DbRelation.delRow] using hres
      · have hres := insertMany_delRows_restore db.columnsRel hwf_c
          (parsed.map (fun p => colDefRow tname p.1 p.2))
          ((tagFrom db.columnsRel.next
              (parsed.map (fun p => colDefRow tname p.1 p.2))).map Prod.fst)
          (db.columnsRel.afterInsert (parsed.map (fun p => colDefRow tname p.1 p.2)))
          (insertMany_eq _ db.columnsRel)
        simpa using hres

/-- The faulty run used to witness C1: the second `_columns` insert throws
"disk full" while the rollback steps succeed. -/
def ctWitnessFaults : CtFaults :=
  { failColInsertAt := some (1, "disk full"), failCreate := none,
    failRollbackColsAt := none, failRollbackTables := false }

/-- C1 (witness): the rollback theorem applied to a concrete faulty
`CREATE TABLE t (a INT, b TEXT)` on the freshly initialized database. -/
theorem create_table_failure_rolls_back_witness :
    (create_table initialDb "t" [⟨"a", ColType.int⟩, ⟨"b", ColType.text⟩] false
          ctWitnessFaults).2
        = Except.error (DbError.dbRelationError "disk full") ∧
      (create_table initialDb "t" [⟨"a", ColType.int⟩, ⟨"b", ColType.text⟩] false
          ctWitnessFaults).1.tablesRel.rows = initialDb.tablesRel.rows ∧
      (create_table initialDb "t" [⟨"a", ColType.int⟩, ⟨"b", ColType.text⟩] false
          ctWitnessFaults).1.columnsRel.rows = initialDb.columnsRel.rows := by
  have h := create_table_failure_rolls_back initialDb "t"
    [⟨"a", ColType.int⟩, ⟨"b", ColType.text⟩] false ctWitnessFaults
    [("a", DataType.INT), ("b", DataType.TEXT)]
    (by decide) (by decide) rfl
    (Or.inl ⟨1, "disk full", rfl, by decide⟩)
  exact ⟨h.1, (h.2 rfl rfl).1, (h.2 rfl rfl).2⟩

/-- The original error message of a faulty CREATE INDEX run. -/
def ixOrigMsg (f : IxFaults) : String :=
  match f.failInsertAt with
  | some jm => jm.2
  | none => f.failCreate.getD ""

theorem indexRowsFrom_length (t i ty : String) :
    ∀ (cols : List String) (seq : Nat),
      (indexRowsFrom t i ty seq cols).length = cols.length := by
  intro cols
  induction cols with
  | nil => intro seq; rfl
  | cons c rest ih =>
      intro seq
      simp only [indexRowsFrom, List.length_cons, ih]

/-- C7: a CREATE INDEX execution that fails after some `_indices` rows were
inserted — whether during the remaining inserts or during physical index
creation — always rethrows the original storage error (rollback failures
are suppressed), and when the best-effort rollback loop does not fail, the
previously inserted `_indices` rows are deleted, leaving `_indices` with
exactly its previous rows. -/
theorem create_index_failure_rolls_back
    (db : DbState) (t i ty : String) (cols : List String) (f : IxFaults)
    (hwf : db.indicesRel.WF)
    (hcols : checkColsExist t (db.get_table t).columnNames cols = Except.ok ())
    (hfail : (∃ j m, f.failInsertAt = some (j, m) ∧ j < cols.length)
      ∨ (f.failInsertAt = none ∧ ∃ m, f.failCreate = some m)) :
    (create_index db t i ty cols f).2
        = Except.error (DbError.dbRelationError (ixOrigMsg f)) ∧
      (f.failRollbackAt = none →
        (create_index db t i ty cols f).1.indicesRel.rows = db.indicesRel.rows) := by
  rcases hfail with ⟨j, m, hsome, hlt⟩ | ⟨hnone, m, hcreate⟩
  · have hct : create_index db t i ty cols f =
        (ixRollback db (db.indicesRel.afterInsert ((indexRowsFrom t i ty 0 cols).take j))
          ((tagFrom db.indicesRel.next
              ((indexRowsFrom t i ty 0 cols).take j)).map Prod.fst) f,
          Except.error (DbError.dbRelationError m)) := by
      simp only [create_index]
      rw [hcols]
      simp only [hsome, indexRowsFrom_length]
      rw [if_pos hlt]
      simp only [insertMany_eq]
    constructor
    · rw [hct]
      simp only [ixOrigMsg, hsome]
    · intro hrb
      rw [hct]
      simp only [ixRollback, hrb]
      have hres := insertMany_delRows_restore db.indicesRel hwf
        ((indexRowsFrom t i ty 0 cols).take j)
        ((tagFrom db.indicesRel.next
            ((indexRowsFrom t i ty 0 cols).take j)).map Prod.fst)
        (db.indicesRel.afterInsert ((indexRowsFrom t i ty 0 cols).take j))
        (insertMany_eq _ db.indicesRel)
      simpa using hres
  · have hct : create_index db t i ty cols f =
        (ixRollback db (db.indicesRel.afterInsert (indexRowsFrom t i ty 0 cols))
          ((tagFrom db.indicesRel.next (indexRowsFrom t i ty 0 cols)).map Prod.fst) f,
          Except.error (DbError.dbRelationError m)) := by
      simp only [create_index]
      rw [hcols]
      simp only [hnone]
      simp only [insertMany_eq]
      simp only [ixCreatePhase, hcreate]
    constructor
    · rw [hct]
      simp only [ixOrigMsg, hnone, hcreate, Option.getD]
    · intro hrb
      rw [hct]
      simp only [ixRollback, hrb]
      have hres := insertMany_delRows_restore db.indicesRel hwf
        (indexRowsFrom t i ty 0 cols)
        ((tagFrom db.indicesRel.next (indexRowsFrom t i ty 0 cols)).map Prod.fst)
        (db.indicesRel.afterInsert (indexRowsFrom t i ty 0 cols))
        (insertMany_eq _ db.indicesRel)
      simpa using hres

/-- The faulty run used to witness C7: the second `_indices` insert throws
"disk full" while the rollback succeeds. -/
def ixWitnessFaults : IxFaults :=
  { failInsertAt := some (1, "disk full"), failCreate := none,
    failRollbackAt := none }

/-- C7 (witness): the rollback theorem applied to a concrete faulty
`CREATE INDEX ix ON t USING BTREE (a, b)` after `t(a INT, b TEXT)` was
created. -/
theorem create_index_failure_rolls_back_witness :
    (create_index dbTab "t" "ix" "BTREE" ["a", "b"] ixWitnessFaults).2
        = Except.error (DbError.dbRelationError "disk full") ∧
      (create_index dbTab "t" "ix" "BTREE" ["a", "b"] ixWitnessFaults).1.indicesRel.rows
        = dbTab.indicesRel.rows := by
  have h := create_index_failure_rolls_back dbTab "t" "ix" "BTREE" ["a", "b"]
    ixWitnessFaults (by decide) rfl
    (Or.inl ⟨1, "disk full", rfl, by decide⟩)
  exact ⟨h.1, h.2 rfl⟩

theorem indexRowsFrom_shared_fields (t i ty : String) :
    ∀ (cols : List String) (seq : Nat) (row : ValueDict),
      row ∈ indexRowsFrom t i ty seq cols →
        vdLookup row "table_name" = some (Value.text t) ∧
          vdLookup row "index_name" = some (Value.text i) ∧
          vdLookup row "index_type" = some (Value.text ty) ∧
          vdLookup row "is_unique" = some (Value.bool (decide (ty = "BTREE"))) := by
  intro cols
  induction cols with
  | nil => intro seq row h; simp [indexRowsFrom] at h
  | cons c rest ih =>
      intro seq row h
      simp only [indexRowsFrom, List.mem_cons] at h
      rcases h with h | h
      · subst h
        refine ⟨?_, ?_, ?_, ?_⟩ <;> rfl
      · exact ih (seq + 1) row h

theorem indexRowsFrom_seq_values (t i ty : String) :
    ∀ (cols : List String) (seq : Nat),
      (indexRowsFrom t i ty seq cols).map (fun row => vdLookup row "seq_in_index")
        = (List.range cols.length).map
            (fun k => some (Value.int (Int.ofNat (seq + k + 1)))) := by
  intro cols
  induction cols with
  | nil => intro seq; rfl
  | cons c rest ih =>
      intro seq
      simp only [indexRowsFrom, List.map_cons, List.length_cons,
        List.range_succ_eq_map, List.map_map]
      simp only [List.cons.injEq]
      refine ⟨rfl, ?_⟩
      rw [ih (seq + 1)]
      apply List.map_congr_left
      intro k _
      simp only [Function.comp]
      congr 2
      exact congrArg Int.ofNat (by omega)

theorem indexRowsFrom_column_names (t i ty : String) :
    ∀ (cols : List String) (seq : Nat),
      (indexRowsFrom t i ty seq cols).map (fun row => vdLookup row "column_name")
        = cols.map (fun c => some (Value.text c)) := by
  intro cols
  induction cols with
  | nil => intro seq; rfl
  | cons c rest ih =>
      intro seq
      simp only [indexRowsFrom, List.map_cons, List.cons.injEq]
      exact ⟨rfl, ih (seq + 1)⟩

/-- C9: a successful CREATE INDEX over columns c1..cn appends to `_indices`
exactly one row per listed column (in listed order) and records the
physical index; every appended row carries the table name, the index name,
the index type and `is_unique = (index_type == "BTREE")`, the
`seq_in_index` values are the gap-free sequence 1..n in listed column
order, and the `column_name` values are the listed columns in order. -/
theorem create_index_success_rows
    (db : DbState) (t i ty : String) (cols : List String)
    (hcols : checkColsExist t (db.get_table t).columnNames cols = Except.ok ())
    (hnew : (t, i) ∉ db.physIndices) :
    create_index db t i ty cols noIxFaults
        = ({ db with
              indicesRel := db.indicesRel.afterInsert (indexRowsFrom t i ty 0 cols)
              physIndices := db.physIndices ++ [(t, i)] },
            Except.ok (QueryResult.msg ("created index " ++ i))) ∧
      (indexRowsFrom t i ty 0 cols).length = cols.length ∧
      (∀ row ∈ indexRowsFrom t i ty 0 cols,
        vdLookup row "table_name" = some (Value.text t) ∧
          vdLookup row "index_name" = some (Value.text i) ∧
          vdLookup row "index_type" = some (Value.text ty) ∧
          vdLookup row "is_unique" = some (Value.bool (decide (ty = "BTREE")))) ∧
      (indexRowsFrom t i ty 0 cols).map (fun row => vdLookup row "seq_in_index")
        = (List.range cols.length).map (fun k => some (Value.int (Int.ofNat (k + 1)))) ∧
      (indexRowsFrom t i ty 0 cols).map (fun row => vdLookup row "column_name")
        = cols.map (fun c => some (Value.text c)) := by
  refine ⟨?_, indexRowsFrom_length t i ty cols 0,
    fun row h => indexRowsFrom_shared_fields t i ty cols 0 row h,
    by simpa using indexRowsFrom_seq_values t i ty cols 0,
    indexRowsFrom_column_names t i ty cols 0⟩
  simp only [create_index]
  rw [hcols]
  simp only [noIxFaults]
  simp only [insertMany_eq]
  simp only [ixCreatePhase]
  have hproj : ({ db with indicesRel :=
      db.indicesRel.afterInsert (indexRowsFrom t i ty 0 cols) } : DbState).physIndices
      = db.physIndices := rfl
  rw [hproj, if_neg hnew]

/-- C9 (witness): the success theorem applied to the concrete
`CREATE INDEX ix ON t USING BTREE (a, b)` after `t(a INT, b TEXT)` was
created: two rows with seq_in_index 1 and 2 appear in `_indices`. -/
theorem create_index_success_rows_witness :
    (create_index dbTab "t" "ix" "BTREE" ["a", "b"] noIxFaults).2
        = Except.ok (QueryResult.msg "created index ix") ∧
      (create_index dbTab "t" "ix" "BTREE" ["a", "b"] noIxFaults).1.indicesRel.rows
        = [(0, [("table_name", Value.text "t"), ("index_name", Value.text "ix"),
              ("index_type", Value.text "BTREE"), ("is_unique", Value.bool true),
              ("seq_in_index", Value.int 1), ("column_name", Value.text "a")]),
            (1, [("table_name", Value.text "t"), ("index_name", Value.text "ix"),
              ("index_type", Value.text "BTREE"), ("is_unique", Value.bool true),
              ("seq_in_index", Value.int 2), ("column_name", Value.text "b")])] := by
  have h := create_index_success_rows dbTab "t" "ix" "BTREE" ["a", "b"]
    rfl (by decide)
  refine ⟨?_, ?_⟩
  · rw [h.1]
    rfl
  · rw [h.1]
    decide

/-- A column absent from the schema's column list makes `get_column_type`
fail with the "unkown column" error, whatever the attribute list. -/
theorem get_column_type_not_mem (column : String) :
    ∀ (cs : List String) (ts : List DataType), column ∉ cs →
      get_column_type column cs ts
        = Except.error (DbError.sqlExecError ("unkown column " ++ column)) := by
  intro cs
  induction cs with
  | nil =>
      intro ts _
      cases ts <;> rfl
  | cons c cs ih =>
      intro ts h
      cases ts with
      | nil => rfl
      | cons t ts =>
          simp only [List.mem_cons, not_or] at h
          simp only [get_column_type]
          rw [if_neg (fun hc => h.1 hc.symm)]
          exact ih ts h.2

/-- If the `i`-th supplied column fails the schema lookup while every
earlier supplied column resolves to an INT or TEXT attribute, the
row-building loop of INSERT stops with that lookup error. -/
theorem buildInsertRow_stops_at_error (cols : List String) (ctypes : List DataType)
    (e : DbError) :
    ∀ (pairs : List (String × Expr)) (i : Nat) (c : String) (v : Expr),
      pairs[i]? = some (c, v) →
      get_column_type c cols ctypes = Except.error e →
      (∀ j, j < i → ∀ p : String × Expr, pairs[j]? = some p →
        ∃ tj, get_column_type p.1 cols ctypes = Except.ok tj ∧
          (tj = DataType.INT ∨ tj = DataType.TEXT)) →
      ∀ row, buildInsertRow cols ctypes pairs row = Except.error e := by
  intro pairs
  induction pairs with
  | nil =>
      intro i c v hp
      simp at hp
  | cons p0 rest ih =>
      intro i c v hp herr hok row
      cases i with
      | zero =>
          simp only [List.getElem?_cons_zero, Option.some.injEq] at hp
          subst hp
          simp only [buildInsertRow, herr]
      | succ i =>
          simp only [List.getElem?_cons_succ] at hp
          obtain ⟨t0, ht0, hcase⟩ := hok 0 (Nat.succ_pos i) p0
            (by simp [List.getElem?_cons_zero])
          have hok' : ∀ j, j < i → ∀ p : String × Expr, rest[j]? = some p →
              ∃ tj, get_column_type p.1 cols ctypes = Except.ok tj ∧
                (tj = DataType.INT ∨ tj = DataType.TEXT) := by
            intro j hj p hpj
            exact hok (j + 1) (Nat.succ_lt_succ hj) p
              (by simpa [List.getElem?_cons_succ] using hpj)
          obtain ⟨c0, v0⟩ := p0
          rcases hcase with h0 | h0 <;> subst h0
          · simp only [buildInsertRow, ht0]
            exact ih i c v hp herr hok' _
          · simp only [buildInsertRow, ht0]
            exact ih i c v hp herr hok' _

/-- C10: an INSERT whose column list names a column absent from the target
table's schema (all columns listed before it resolving to INT or TEXT
attributes) fails with the "unkown column <name>" error and leaves the
whole database state — the table, its indices and the catalog — exactly
unchanged: the error is raised while building the row, before the table
insert and before any index update. -/
theorem insert_unknown_column_fails
    (db : DbState) (tname : String) (insCols : List String) (insVals : List Expr)
    (i : Nat) (c : String) (v : Expr)
    (hp : (insCols.zip insVals)[i]? = some (c, v))
    (hunk : c ∉ (db.get_table tname).columnNames)
    (hok : ∀ j, j < i → ∀ p : String × Expr, (insCols.zip insVals)[j]? = some p →
      ∃ tj, get_column_type p.1 (db.get_table tname).columnNames
          (db.get_table tname).columnAttrs = Except.ok tj ∧
        (tj = DataType.INT ∨ tj = DataType.TEXT)) :
    insert db tname insCols insVals
      = (db, Except.error (DbError.sqlExecError ("unkown column " ++ c))) := by
  have herr := get_column_type_not_mem c (db.get_table tname).columnNames
    (db.get_table tname).columnAttrs hunk
  have hb := buildInsertRow_stops_at_error (db.get_table tname).columnNames
    (db.get_table tname).columnAttrs _ (insCols.zip insVals) i c v hp herr hok []
  simp only [insert, hb]

/-- C10 (witness): `INSERT INTO t (a, zz) VALUES (1, 2)` on the table
`t(a INT, b TEXT)` fails with "unkown column zz" and leaves the state
unchanged. -/
theorem insert_unknown_column_fails_witness :
    insert dbTab "t" ["a", "zz"] [intLit 1, intLit 2]
      = (dbTab, Except.error (DbError.sqlExecError "unkown column zz")) := by
  have h := insert_unknown_column_fails dbTab "t" ["a", "zz"] [intLit 1, intLit 2]
    1 "zz" (intLit 2) rfl (by decide) ?hok
  · exact h
  case hok =>
    intro j hj p hpj
    have hj0 : j = 0 := by omega
    subst hj0
    simp only [List.zip_cons_cons, List.getElem?_cons_zero, Option.some.injEq] at hpj
    subst hpj
    exact ⟨DataType.INT, rfl, Or.inl rfl⟩

/-- Filtering by a guard after mapping equals mapping then filtering. -/
theorem filterMap_guard_map {α β : Type} (g : α → β) (q : β → Prop)
    [DecidablePred q] :
    ∀ l : List α,
      (l.filterMap fun h => if q (g h) then some (g h) else none)
        = (l.map g).filter fun b => decide (q b) := by
  intro l
  induction l with
  | nil => rfl
  | cons a l ih =>
      simp only [List.filterMap_cons, List.map_cons, List.filter_cons]
      by_cases h : q (g a)
      · simp [h, ih]
      · simp [h, ih]

/-- The SHOW TABLES output rows as the claim describes them: the scanned
`_tables` rows (projected on `table_name`, in scan order) with the three
meta-tables omitted. -/
def scanRowsMinusMeta (db : DbState) : List ValueDict :=
  (db.tablesRel.rows.map fun p => db.tablesRel.project p.1 ["table_name"]).filter
    fun row =>
      decide (textOf (vdLookup row "table_name") ≠ "_tables" ∧
        textOf (vdLookup row "table_name") ≠ "_columns" ∧
        textOf (vdLookup row "table_name") ≠ "_indices")

set_option maxRecDepth 4096 in
/-- C8: SHOW TABLES outputs the scanned `_tables` rows with the three
meta-tables omitted, while the row count in the message is the number of
scanned handles minus 3 — computed from the handle count alone, regardless
of how many rows the filter removed.  (The source computes it in `u_long`
arithmetic; with at least the three self-rows present it equals the true
difference.) -/
theorem show_tables_filters_meta_but_counts_handles (db : DbState)
    (h3 : 3 ≤ db.tablesRel.rows.length)
    (hcap : db.tablesRel.rows.length ≤ 2 ^ 64) :
    show_tables db
      = QueryResult.table ["table_name"] [DataType.TEXT] (scanRowsMinusMeta db)
          ("successfully returned " ++ toString (db.tablesRel.rows.length - 3)
            ++ " rows") := by
  simp only [show_tables]
  have hrows := filterMap_guard_map
    (fun h => db.tablesRel.project h ["table_name"])
    (fun row => textOf (vdLookup row "table_name") ≠ "_tables" ∧
      textOf (vdLookup row "table_name") ≠ "_columns" ∧
      textOf (vdLookup row "table_name") ≠ "_indices")
    db.tablesRel.selectAll
  rw [hrows]
  have hmsg : (db.tablesRel.selectAll.length + (2 ^ 64 - 3)) % 2 ^ 64
      = db.tablesRel.rows.length - 3 := by
    simp only [DbRelation.selectAll, List.length_map]
    omega
  rw [hmsg]
  have h1 : ((db.tablesRel.selectAll.map fun h => db.tablesRel.project h ["table_name"]).filter
      fun b => decide (textOf (vdLookup b "table_name") ≠ "_tables" ∧
        textOf (vdLookup b "table_name") ≠ "_columns" ∧
        textOf (vdLookup b "table_name") ≠ "_indices"))
      = scanRowsMinusMeta db := by
    simp only [scanRowsMinusMeta, DbRelation.selectAll, List.map_map]
    rfl
  rw [h1]

/-- C8 (witness): on the freshly initialized database the three self-rows
are scanned, all are filtered from the output, and the message still
reports `3 - 3 = 0` rows. -/
theorem show_tables_filters_meta_but_counts_handles_witness :
    show_tables initialDb
      = QueryResult.table ["table_name"] [DataType.TEXT] []
          "successfully returned 0 rows" := by
  have h := show_tables_filters_meta_but_counts_handles initialDb
    (by decide) (by decide)
  exact h.trans (by decide)

end RelationManager
